import Mathlib

/-!
Verification development for the AURA Fee Recommendation Ensemble Engine
(src/ai/production_models.py and src/ai/ml_models.py).

Python floats are modelled as exact rationals (`ℚ`); Python dicts carrying
numeric market data are modelled as association lists `List (String × ℚ)`
(an absent key, a `None` value and an empty dict all behave as the empty
list, matching Python truthiness of the `market_data.get(..., \x7b\x7d)`
idiom).  Machine-learning model objects are modelled as opaque prediction
functions `FeatureRow → Option ℚ`, where `none` stands for a member whose
`predict` raised (the source catches the exception and skips the member).
Randomness drawn from numpy's globally seeded PRNG is modelled by an
explicit deterministic stream indexed by (seed, draw counter).
-/

/-- Python `d.get(k, dflt)` on a numeric dict modelled as an association list. -/
def dictGet (d : List (String × ℚ)) (k : String) (dflt : ℚ) : ℚ :=
  (d.lookup k).getD dflt

/-- `np.mean` of a list of rationals (only ever applied to non-empty lists
in the source; `[]` gives `0/0 = 0` in `ℚ`). -/
def listMean (xs : List ℚ) : ℚ := xs.sum / xs.length

/-- Population variance, i.e. the square of `np.std`.  The source compares
`np.std(xs)` against the positive thresholds 0.05 and 0.15; since the real
square root is monotone those comparisons are equivalent to comparing the
variance against the squared thresholds, which is exact over `ℚ`. -/
def listVariance (xs : List ℚ) : ℚ :=
  listMean (xs.map (fun x => (x - listMean xs) ^ 2))

/-- The Python clamp idiom `max(lo, min(x, hi))`. -/
def clampQ (lo hi x : ℚ) : ℚ := max lo (min x hi)

theorem clampQ_le_right (lo hi x : ℚ) (h : lo ≤ hi) : clampQ lo hi x ≤ hi :=
  max_le h (min_le_right x hi)

theorem le_clampQ_left (lo hi x : ℚ) : lo ≤ clampQ lo hi x :=
  le_max_left lo (min x hi)

/-- One Newton step for the square root (display only, see `sqrtQ`). -/
def sqrtNewtonStep (x s : ℚ) : ℚ := (s + x / s) / 2

/-- Rational approximation of the real square root.  It is used only to
render the `σ=` figure inside reasoning strings; every branch condition of
the source that involves `np.std` is modelled exactly through the variance
(see `listVariance`), so no theorem depends on the value of `sqrtQ`. -/
def sqrtQ (x : ℚ) : ℚ :=
  if x ≤ 0 then 0
  else
    sqrtNewtonStep x (sqrtNewtonStep x (sqrtNewtonStep x
      (sqrtNewtonStep x (sqrtNewtonStep x (max x 1)))))

/-- Round to the nearest integer, ties to even — the rounding used by both
Python's builtin `round` and the `:.Nf` format specifier. -/
def roundHalfEvenZ (x : ℚ) : ℤ :=
  let f := Int.floor x
  let frac := x - (f : ℚ)
  if frac < 1 / 2 then f
  else if 1 / 2 < frac then f + 1
  else if f % 2 = 0 then f else f + 1

/-- Python `round(x, prec)` on our rational model of floats. -/
def roundTo (prec : ℕ) (x : ℚ) : ℚ :=
  (roundHalfEvenZ (x * (10 : ℚ) ^ prec) : ℚ) / (10 : ℚ) ^ prec

/-- Python `f"…:.precf"` fixed-point formatting on our rational model. -/
def fmtFixed (prec : ℕ) (x : ℚ) : String :=
  let scaled := roundHalfEvenZ (x * (10 : ℚ) ^ prec)
  let sign := if scaled < 0 then "-" else ""
  let a := scaled.natAbs
  let ip := a / 10 ^ prec
  let fp := a % 10 ^ prec
  if prec = 0 then sign ++ toString ip
  else
    let fracStr := toString fp
    sign ++ toString ip ++ "." ++
      String.mk (List.replicate (prec - fracStr.length) '0') ++ fracStr

/-- Modelled from config.py: `Config.BASE_FEE_RATE`, the value of the
`BASE_FEE_RATE` environment variable with documented default "0.3". -/
def baseFeeRate : ℚ := 0.3

/-- The 14-field FeatureVector of `ProductionFeePredictor.feature_columns`
(identical in `AdvancedFeePredictor`).  The field the source calls
`volume_ratio` is named `volume_ratio_val` here. -/
structure FeatureRow where
  volatility : ℚ
  volume_24h : ℚ
  price_change_1h : ℚ
  price_change_24h : ℚ
  market_cap : ℚ
  gas_price_gwei : ℚ
  liquidity_score : ℚ
  hour_of_day : ℚ
  day_of_week : ℚ
  volume_ma_7d : ℚ
  volatility_ma_7d : ℚ
  price_momentum : ℚ
  volume_ratio_val : ℚ
  gas_trend : ℚ
  deriving DecidableEq

/-- A raw `market_data` snapshot: the `coingecko` and `network` sub-dicts.
`[]` models an absent, `None` or empty sub-dict (all falsy in Python). -/
structure MarketDataSnapshot where
  coingecko : List (String × ℚ)
  network : List (String × ℚ)
  deriving DecidableEq

/-- The ambient wall clock: what `datetime.now()` supplies to the code
(`.hour`, `.weekday()` and `.isoformat()`). -/
structure TimeInfo where
  hour : ℕ
  weekday : ℕ
  isoTimestamp : String
  deriving DecidableEq

/-- Spec formula (section 4.1): `liquidity_score = volume_24h / max(market_cap, 1) * 100`. -/
def specLiquidityScore (volume mcap : ℚ) : ℚ := volume / max mcap 1 * 100

/-- Spec formula (section 4.1): `gas_trend = (gas_price_gwei - 28) / 372`
with the generator-consistent baselines G0 = 28 and SPAN = 372. -/
def specGasTrend (gas : ℚ) : ℚ := (gas - 28) / 372

/-- `ProductionFeePredictor._extract_features_from_market_data`.  Returns
`none` exactly when the `coingecko` sub-dict is falsy; nothing in the body
can raise, so the source's `except` arm is unreachable. -/
def extractFeaturesFromMarketData (t : TimeInfo) (s : MarketDataSnapshot) :
    Option FeatureRow :=
  if s.coingecko = [] then none
  else
    let volatility := dictGet s.coingecko "volatility" 0
    let volume24h := dictGet s.coingecko "volume_24h" 0
    let priceChange24h := dictGet s.coingecko "price_change_24h" 0
    let marketCap := dictGet s.coingecko "market_cap" 0
    let gasPriceGwei := if s.network = [] then 28 else dictGet s.network "gas_price_gwei" 28
    let liquidityScore := if 0 < marketCap then volume24h / max marketCap 1 * 100 else 0
    let priceChange1h := priceChange24h * 0.08
    let volumeMa7d := volume24h * 0.92
    let volatilityMa7d := volatility * 1.08
    let priceMomentum := priceChange24h * 1.15
    let vr := if 0 < volumeMa7d then volume24h / volumeMa7d else 1
    let gasTrend := (gasPriceGwei - 28) / 372
    some {
      volatility := volatility
      volume_24h := volume24h
      price_change_1h := priceChange1h
      price_change_24h := priceChange24h
      market_cap := marketCap
      gas_price_gwei := gasPriceGwei
      liquidity_score := liquidityScore
      hour_of_day := (t.hour : ℚ)
      day_of_week := (t.weekday : ℚ)
      volume_ma_7d := volumeMa7d
      volatility_ma_7d := volatilityMa7d
      price_momentum := priceMomentum
      volume_ratio_val := vr
      gas_trend := gasTrend }

/-- `ProductionFeePredictor._calculate_model_confidence`: static per-model
prior (dict lookup with default 0.75) plus signed extremity adjustments,
clamped to [0.4, 0.95]. -/
def calculateModelConfidence (modelName : String) (f : FeatureRow) : ℚ :=
  let baseConfidence :=
    if modelName = "random_forest" then (0.87 : ℚ)
    else if modelName = "gradient_boosting" then 0.84
    else if modelName = "neural_network" then 0.81
    else 0.75
  let adjVol :=
    if f.volatility > 20 then (-0.15 : ℚ)
    else if f.volatility > 12 then -0.08
    else if f.volatility < 2 then 0.05
    else 0
  let adjVolume := if f.volume_ratio_val > 2 ∨ f.volume_ratio_val < 0.4 then (-0.08 : ℚ) else 0
  let adjGas := if |f.gas_trend| > 0.7 then (-0.06 : ℚ) else 0
  clampQ 0.4 0.95 (baseConfidence + (adjVol + adjVolume + adjGas))

/-- `AdvancedFeePredictor._calculate_model_confidence` (ml_models.py).  The
source reads `features[0][0]`, the (scaled) volatility entry, passed here as
`vol`; it clamps to [0.5, 0.95]. -/
def advCalculateModelConfidence (modelName : String) (vol : ℚ) : ℚ :=
  let baseConfidence :=
    if modelName = "random_forest" then (0.85 : ℚ)
    else if modelName = "gradient_boosting" then 0.80
    else if modelName = "xgboost" then 0.88
    else if modelName = "lightgbm" then 0.86
    else if modelName = "neural_network" then 0.82
    else 0.75
  let adj :=
    if vol > 15 then (-0.1 : ℚ)
    else if vol < 2 then 0.05
    else 0
  clampQ 0.5 0.95 (baseConfidence + adj)

/-- Body of `ProductionFeePredictor._classify_market_condition` after the
source extracts the quadruple (volatility, volume_ratio, gas_trend,
abs(price_change_24h)) from the feature row. -/
def classifyAux (v vr gt pc : ℚ) : String :=
  if v > 20 ∧ pc > 15 then "extreme_volatility"
  else if v > 12 ∧ gt > 0.4 then "high_volatility_congested"
  else if v > 8 then "high_volatility"
  else if v < 2 ∧ vr > 1.2 then "stable_liquid"
  else if v < 3 then "stable"
  else if gt > 0.6 then "network_congested"
  else "moderate"

/-- `ProductionFeePredictor._classify_market_condition`. -/
def classifyMarketCondition (f : FeatureRow) : String :=
  classifyAux f.volatility f.volume_ratio_val f.gas_trend |f.price_change_24h|

/-- The optional model-agreement note of
`ProductionFeePredictor._generate_production_reasoning` (spec section 4.8),
stated through the variance (exact model of the `np.std` thresholds
0.05 and 0.15: 1/400 = 0.05 squared, 9/400 = 0.15 squared). -/
def agreementNote (predictions : List (String × ℚ)) : Option String :=
  if predictions = [] then none
  else
    let variance := listVariance (predictions.map Prod.snd)
    if variance < 1 / 400 then
      some ("Strong model consensus (σ=" ++ fmtFixed 3 (sqrtQ variance) ++ ")")
    else if variance > 9 / 400 then
      some ("Model disagreement detected (σ=" ++ fmtFixed 3 (sqrtQ variance) ++ ")")
    else none

/-- The optional volatility commentary of the reasoning generator. -/
def volatilityNote (f : FeatureRow) : Option String :=
  if f.volatility > 15 then
    some ("Extreme volatility (" ++ fmtFixed 1 f.volatility ++ "%) increases trading risk")
  else if f.volatility > 8 then
    some ("High volatility (" ++ fmtFixed 1 f.volatility ++ "%) detected")
  else if f.volatility < 2 then
    some ("Very stable market conditions (" ++ fmtFixed 1 f.volatility ++ "% volatility)")
  else none

/-- The optional volume/liquidity commentary of the reasoning generator. -/
def volumeNote (f : FeatureRow) : Option String :=
  if f.volume_ratio_val > 1.5 then
    some "Above-average trading volume supports lower fees"
  else if f.volume_ratio_val < 0.7 then
    some "Below-average volume may increase price impact"
  else none

/-- The optional network-congestion commentary of the reasoning generator. -/
def congestionNote (f : FeatureRow) : Option String :=
  if f.gas_price_gwei > 80 then
    some ("High network congestion (" ++ fmtFixed 0 f.gas_price_gwei ++ " GWEI)")
  else if f.gas_price_gwei < 20 then
    some "Low network congestion favors efficient execution"
  else none

/-- The optional time-of-day commentary of the reasoning generator. -/
def timeOfDayNote (f : FeatureRow) : Option String :=
  if f.hour_of_day = 14 ∨ f.hour_of_day = 15 ∨ f.hour_of_day = 16 then
    some "Peak trading hours may increase volatility"
  else if f.hour_of_day = 2 ∨ f.hour_of_day = 3 ∨ f.hour_of_day = 4 ∨ f.hour_of_day = 5 then
    some "Low-activity period with reduced liquidity"
  else none

/-- The optional percentage-deviation-from-base-fee statement of the
reasoning generator. -/
def deviationNote (finalPrediction : ℚ) : Option String :=
  let frat := finalPrediction / baseFeeRate
  if frat > 1.5 then
    some ("Fee " ++ fmtFixed 0 ((frat - 1) * 100) ++ "% above base rate due to market conditions")
  else if frat < 0.8 then
    some ("Fee " ++ fmtFixed 0 ((1 - frat) * 100) ++ "% below base rate due to favorable conditions")
  else none

/-- The six justification slots of spec section 4.8, in the contractual
order: model agreement, volatility, volume/liquidity, network congestion,
time of day, deviation from base fee. -/
def reasoningSlots (f : FeatureRow) (predictions : List (String × ℚ))
    (finalPrediction : ℚ) : List (Option String) :=
  [agreementNote predictions, volatilityNote f, volumeNote f,
   congestionNote f, timeOfDayNote f, deviationNote finalPrediction]

/-- `ProductionFeePredictor._generate_production_reasoning`, transcribed
from the source as the sequence of conditional appends to the `reasons`
list followed by `". ".join(reasons) + "."`. -/
def generateProductionReasoning (f : FeatureRow) (predictions : List (String × ℚ))
    (finalPrediction : ℚ) : String :=
  let volatility := f.volatility
  let vr := f.volume_ratio_val
  let gasPriceGwei := f.gas_price_gwei
  let hourOfDay := f.hour_of_day
  let reasons0 : List String := []
  let reasons1 := reasons0 ++
    (if predictions = [] then []
     else
       let variance := listVariance (predictions.map Prod.snd)
       if variance < 1 / 400 then
         ["Strong model consensus (σ=" ++ fmtFixed 3 (sqrtQ variance) ++ ")"]
       else if variance > 9 / 400 then
         ["Model disagreement detected (σ=" ++ fmtFixed 3 (sqrtQ variance) ++ ")"]
       else [])
  let reasons2 := reasons1 ++
    (if volatility > 15 then
       ["Extreme volatility (" ++ fmtFixed 1 volatility ++ "%) increases trading risk"]
     else if volatility > 8 then
       ["High volatility (" ++ fmtFixed 1 volatility ++ "%) detected"]
     else if volatility < 2 then
       ["Very stable market conditions (" ++ fmtFixed 1 volatility ++ "% volatility)"]
     else [])
  let reasons3 := reasons2 ++
    (if vr > 1.5 then ["Above-average trading volume supports lower fees"]
     else if vr < 0.7 then ["Below-average volume may increase price impact"]
     else [])
  let reasons4 := reasons3 ++
    (if gasPriceGwei > 80 then
       ["High network congestion (" ++ fmtFixed 0 gasPriceGwei ++ " GWEI)"]
     else if gasPriceGwei < 20 then
       ["Low network congestion favors efficient execution"]
     else [])
  let reasons5 := reasons4 ++
    (if hourOfDay = 14 ∨ hourOfDay = 15 ∨ hourOfDay = 16 then
       ["Peak trading hours may increase volatility"]
     else if hourOfDay = 2 ∨ hourOfDay = 3 ∨ hourOfDay = 4 ∨ hourOfDay = 5 then
       ["Low-activity period with reduced liquidity"]
     else [])
  let frat := finalPrediction / baseFeeRate
  let reasons6 := reasons5 ++
    (if frat > 1.5 then
       ["Fee " ++ fmtFixed 0 ((frat - 1) * 100) ++ "% above base rate due to market conditions"]
     else if frat < 0.8 then
       ["Fee " ++ fmtFixed 0 ((1 - frat) * 100) ++ "% below base rate due to favorable conditions"]
     else [])
  String.intercalate ". " reasons6 ++ "."

/-- `ProductionFeePredictor._calculate_sophisticated_optimal_fee`: the
Optimal-Fee Oracle Function of the production variant.  The Gaussian label
noise `np.random.normal(0, 0.015)` is passed in as `noise`. -/
def calculateSophisticatedOptimalFee (row : FeatureRow) (noise : ℚ) : ℚ :=
  let baseFee := baseFeeRate
  let volatility := row.volatility
  let vr := row.volume_ratio_val
  let gasTrend := row.gas_trend
  let hour := row.hour_of_day
  let day := row.day_of_week
  let liquidityScore := row.liquidity_score
  let priceMomentum := |row.price_momentum|
  let priceChange24h := |row.price_change_24h|
  let volFactor :=
    if volatility > 15 then 1.5 + (volatility - 15) * 0.08
    else if volatility > 8 then 1.2 + (volatility - 8) * 0.04
    else if volatility < 2 then 0.7 + volatility * 0.1
    else 0.9 + (volatility - 2) * 0.05
  let volumeFactor :=
    if vr > 1.5 then (0.85 : ℚ)
    else if vr > 1.2 then 0.95 - (vr - 1.2) * 0.33
    else if vr < 0.6 then 1.25
    else if vr < 0.8 then 1.1 + (0.8 - vr) * 0.75
    else 1
  let gasFactor :=
    if gasTrend > 0.5 then 1.3 + gasTrend * 0.4
    else if gasTrend > 0.2 then 1.1 + gasTrend * 0.5
    else if gasTrend < -0.2 then 0.9 + gasTrend * 0.2
    else 1 + gasTrend * 0.3
  let timeFactor0 :=
    if hour = 14 ∨ hour = 15 ∨ hour = 16 then (1.15 : ℚ)
    else if hour = 21 ∨ hour = 22 then 1.08
    else if hour = 2 ∨ hour = 3 ∨ hour = 4 ∨ hour = 5 then 0.85
    else 1
  let timeFactor := if day = 5 ∨ day = 6 then timeFactor0 * 0.92 else timeFactor0
  let momentumFactor := 1 + min (priceMomentum / 10) 0.3
  let liquidityFactor :=
    if liquidityScore > 8 then (0.9 : ℚ)
    else if liquidityScore > 4 then 0.95
    else if liquidityScore < 1 then 1.2
    else if liquidityScore < 2 then 1.1
    else 1
  let stabilityFactor :=
    if priceChange24h > 10 then 1.1 + (priceChange24h - 10) * 0.02
    else if priceChange24h < 1 then (0.95 : ℚ)
    else 1
  let optimalFee := baseFee *
    (volFactor * 0.35 + volumeFactor * 0.25 + gasFactor * 0.20 +
     timeFactor * 0.10 + momentumFactor * 0.05 + liquidityFactor * 0.03 +
     stabilityFactor * 0.02)
  clampQ 0.05 2.5 (optimalFee + noise)

/-- `AdvancedFeePredictor._calculate_sophisticated_optimal_fee`
(ml_models.py): the advanced-variant oracle.  Its volatility branch uses the
real-valued power `(volatility - 10) ** 1.2`, which is irrational; the
caller supplies it as `powOneTwo` (no theorem depends on its value).  The
`np.random.normal(0, 0.02)` label noise is passed in as `noise`.  Note the
clamp upper bound is 3.0, not 2.5. -/
def advCalculateSophisticatedOptimalFee (f : FeatureRow) (noise : ℚ)
    (powOneTwo : ℚ → ℚ) : ℚ :=
  let baseFee := baseFeeRate
  let volatility := f.volatility
  let volatilityFactor :=
    if volatility > 10 then 1 + powOneTwo (volatility - 10) * 0.05
    else if volatility < 2 then (0.8 : ℚ)
    else 1 + (volatility - 5) * 0.02
  let vr := f.volume_ratio_val
  let volumeFactor :=
    if vr > 1.2 then (0.9 : ℚ)
    else if vr < 0.8 then 1.1
    else 1
  let gasFactor := 1 + f.gas_trend * 0.3
  let hour := f.hour_of_day
  let timeFactor :=
    if hour = 9 ∨ hour = 10 ∨ hour = 16 ∨ hour = 17 then (1.1 : ℚ)
    else if hour = 2 ∨ hour = 3 ∨ hour = 4 ∨ hour = 5 then 0.9
    else 1
  let liquidityFactor :=
    if f.liquidity_score > 5 then (0.95 : ℚ)
    else if f.liquidity_score < 1 then 1.15
    else 1
  let momentumFactor := 1 + |f.price_momentum| * 0.01
  let optimalFee := baseFee * volatilityFactor * volumeFactor * gasFactor *
    timeFactor * liquidityFactor * momentumFactor
  clampQ 0.05 3.0 (optimalFee + noise)

/-- A value of the heterogeneous Python result dict returned by
`predict_optimal_fee`: a float, a string, a string-to-float sub-dict, an
int, or Python `None` (the value of `primary_model` when
`best_model_name` is unset). -/
inductive PValue where
  | num : ℚ → PValue
  | str : String → PValue
  | map : List (String × ℚ) → PValue
  | int : ℕ → PValue
  | null : PValue
  deriving DecidableEq

/-- `ProductionFeePredictor._fallback_prediction`: the six-field fallback
record (base fee, confidence 0.4, fixed reasoning string). -/
def fallbackPrediction (ts : String) : List (String × PValue) :=
  [("recommended_fee", PValue.num baseFeeRate),
   ("confidence", PValue.num 0.4),
   ("reasoning", PValue.str "Using fallback base fee due to insufficient data or model errors"),
   ("market_condition", PValue.str "unknown"),
   ("primary_model", PValue.str "fallback"),
   ("prediction_timestamp", PValue.str ts)]

/-- One successfully predicting ensemble member: its name, its raw
prediction and its confidence.  In the source `predictions[name]` and
`confidences[name]` are always populated together inside one `try`, so the
two dicts share their key set and are modelled as one list of entries. -/
abbrev PredEntry := String × ℚ × ℚ

/-- The Ensemble Blender: lines 643-666 of production_models.py.  Returns
(final recommendation, ensemble prediction, primary confidence).
The `best_model_name and best_model_name in predictions` test is modelled
by `best.bind (entries.lookup)`.  When the best member is absent the
source falls back to the plain `np.mean` of predictions and confidences,
and the confidence-weighted mean is only ever reported as the separate
`ensemble_prediction`; the final value is the clamped primary. -/
def blendPredictions (entries : List PredEntry) (best : Option String) : ℚ × ℚ × ℚ :=
  let primaryPair : ℚ × ℚ :=
    match best.bind (fun b => entries.lookup b) with
    | some pc => pc
    | none => (listMean (entries.map (fun e => e.2.1)), listMean (entries.map (fun e => e.2.2)))
  let primaryPrediction := primaryPair.1
  let primaryConfidence := primaryPair.2
  let totalWeight := (entries.map (fun e => e.2.2)).sum
  let ensemblePrediction :=
    if 0 < totalWeight then
      (entries.map (fun e => e.2.1 * e.2.2)).sum / totalWeight
    else primaryPrediction
  (clampQ 0.05 2.5 primaryPrediction, ensemblePrediction, primaryConfidence)

/-- An ensemble member as held in `self.models`: either the `None`
placeholder (the not-yet-built neural network) or an opaque scaled
prediction function; `none` as the function result models a member whose
scaling or prediction raised, which the source logs and skips. -/
abbrev ModelSlot := String × Option (FeatureRow → Option ℚ)

/-- The value of the `primary_model` field on the success path:
`self.best_model_name`, which is Python `None` when unset. -/
def primaryModelValue : Option String → PValue
  | some b => PValue.str b
  | none => PValue.null

/-- `ProductionFeePredictor.predict_optimal_fee` for a supplied snapshot.
The predictor state after lazy training is abstracted as the `models` map
and `best` (`self.best_model_name`); `t` supplies everything the source
reads from `datetime.now()`.  Every failure path of the source ends in
`_fallback_prediction`, so the function is total: no fault reaches the
caller. -/
def predictOptimalFee (models : List ModelSlot) (best : Option String)
    (t : TimeInfo) (s : MarketDataSnapshot) : List (String × PValue) :=
  match extractFeaturesFromMarketData t s with
  | none => fallbackPrediction t.isoTimestamp
  | some f =>
    let entries : List PredEntry :=
      models.filterMap (fun nm =>
        match nm.2 with
        | none => none
        | some m => (m f).map (fun p => (nm.1, p, calculateModelConfidence nm.1 f)))
    if entries = [] then fallbackPrediction t.isoTimestamp
    else
      let blended := blendPredictions entries best
      let finalPrediction := blended.1
      let ensemblePrediction := blended.2.1
      let primaryConfidence := blended.2.2
      let preds := entries.map (fun e => (e.1, e.2.1))
      let confs := entries.map (fun e => (e.1, e.2.2))
      let reasoning := generateProductionReasoning f preds finalPrediction
      let marketCondition := classifyMarketCondition f
      [("recommended_fee", PValue.num (roundTo 4 finalPrediction)),
       ("confidence", PValue.num (roundTo 3 primaryConfidence)),
       ("reasoning", PValue.str reasoning),
       ("market_condition", PValue.str marketCondition),
       ("primary_model", primaryModelValue best),
       ("ensemble_prediction", PValue.num (roundTo 4 ensemblePrediction)),
       ("all_predictions", PValue.map (preds.map (fun kv => (kv.1, roundTo 4 kv.2)))),
       ("model_confidences", PValue.map (confs.map (fun kv => (kv.1, roundTo 3 kv.2)))),
       ("features_used", PValue.int 14),
       ("prediction_timestamp", PValue.str t.isoTimestamp)]

/-- The ordered key list of a prediction-result record. -/
def resultKeys (r : List (String × PValue)) : List String := r.map Prod.fst

/-- Modelled stand-in for one draw of numpy's global Mersenne-Twister PRNG
after `np.random.seed(seed)`: a deterministic function of the seed and the
number of draws already consumed.  Only determinism matters to the claims,
not the distribution, so a simple mixing formula is used. -/
def npNatDraw (seed k : ℕ) : ℕ :=
  ((seed + 1) * 2654435761 + (k + 1) * 40503) % 1000

/-- Modelled unit draw in [0, 1). -/
def npUnit (seed k : ℕ) : ℚ := (npNatDraw seed k : ℚ) / 1000

/-- Modelled `np.random.exponential(scale)`: a non-negative draw with the
given scale. -/
def npExponential (seed k : ℕ) (scale : ℚ) : ℚ := scale * (3 * npUnit seed k)

/-- Modelled `np.random.normal(mu, sigma)`: a draw centred at `mu`. -/
def npNormal (seed k : ℕ) (mu sigma : ℚ) : ℚ :=
  mu + sigma * (2 * npUnit seed k - 1)

/-- Modelled `exp(mu)` for the lognormal location (rational approximation
of Euler's number raised to the integer part; exact 1 at `mu = 0`, the only
location the production generator uses). -/
def expQ (mu : ℚ) : ℚ := (2718281828 / 1000000000 : ℚ) ^ (Int.floor mu).toNat

/-- Modelled `np.random.lognormal(mu, sigma)`: a positive draw for the
sigmas the source uses (all at most 0.4). -/
def npLognormal (seed k : ℕ) (mu sigma : ℚ) : ℚ :=
  expQ mu * (1 + sigma * (2 * npUnit seed k - 1))

/-- Modelled `np.random.uniform(a, b)`. -/
def npUniform (seed k : ℕ) (a b : ℚ) : ℚ := a + (b - a) * npUnit seed k

/-- Modelled `np.random.randint(lo, hi)`. -/
def npRandint (seed k lo hi : ℕ) : ℕ := lo + npNatDraw seed k % (hi - lo)

/-- Modelled approximation of the real-valued power `x ** 1.2` used by the
advanced oracle's high-volatility branch (approximated as x ** 1.25 =
x * sqrt (sqrt x); no claim depends on its value). -/
def powOneTwoModel (x : ℚ) : ℚ := x * sqrtQ (sqrtQ x)

/-- Loop state of `_generate_realistic_training_data`: the feature rows
generated so far (`data`, earlier rows first) and the number of PRNG draws
consumed. -/
structure GenState where
  rows : List FeatureRow
  k : ℕ
  deriving DecidableEq

/-- One iteration of the body of
`ProductionFeePredictor._generate_realistic_training_data`.  `startHour`
and `startWeekday` describe `start_date = datetime.now() - timedelta(days=365)`;
iteration `i` (the number of rows already generated) works at
`start_date + timedelta(hours=i)`. -/
def prodGenStep (seed startHour startWeekday : ℕ) (st : GenState) : GenState :=
  let i := st.rows.length
  let hourOfDay := (startHour + i) % 24
  let dayOfWeek := (startWeekday + (startHour + i) / 24) % 7
  let baseVol : ℚ := 4
  let timeVolMultiplier : ℚ :=
    if hourOfDay = 14 ∨ hourOfDay = 15 ∨ hourOfDay = 16 ∨ hourOfDay = 21 ∨ hourOfDay = 22 then 1.4
    else if hourOfDay = 2 ∨ hourOfDay = 3 ∨ hourOfDay = 4 ∨ hourOfDay = 5 then 0.6
    else 1
  let dayVolMultiplier : ℚ :=
    if dayOfWeek = 0 ∨ dayOfWeek = 1 ∨ dayOfWeek = 2 then 1.2
    else if dayOfWeek = 5 ∨ dayOfWeek = 6 then 0.7
    else 1
  let volatilityDraw : ℚ :=
    if 0 < i then
      let prevVol := match st.rows.getLast? with
        | some r => r.volatility
        | none => baseVol
      0.7 * prevVol + 0.3 * npExponential seed st.k baseVol
    else npExponential seed st.k baseVol
  let k1 := st.k + 1
  let volatility := clampQ 0.5 30 (volatilityDraw * (timeVolMultiplier * dayVolMultiplier))
  let baseVolume : ℚ := 1200000000
  let volVolumeFactor := 1 + min (volatility / 10) 2 * 0.5
  let timeVolumeFactor : ℚ :=
    if hourOfDay = 14 ∨ hourOfDay = 15 ∨ hourOfDay = 16 then 1.8
    else if hourOfDay = 2 ∨ hourOfDay = 3 ∨ hourOfDay = 4 ∨ hourOfDay = 5 then 0.3
    else 1
  let volume24h := clampQ 100000000 8000000000
    (baseVolume * volVolumeFactor * timeVolumeFactor * npLognormal seed k1 0 0.4)
  let k2 := k1 + 1
  let priceChange1h := npNormal seed k2 0 (volatility / 15)
  let k3 := k2 + 1
  let priceChange24h := npNormal seed k3 0 (volatility / 4)
  let k4 := k3 + 1
  let marketCapDrift := npNormal seed k4 0 0.02
  let k5 := k4 + 1
  let marketCap := clampQ 15000000000 50000000000 (28000000000 * (1 + marketCapDrift))
  let baseGas : ℚ := 28
  let gasMultiplier0 : ℚ :=
    if hourOfDay = 14 ∨ hourOfDay = 15 ∨ hourOfDay = 16 ∨ hourOfDay = 21 ∨ hourOfDay = 22 then 1.6
    else if hourOfDay = 2 ∨ hourOfDay = 3 ∨ hourOfDay = 4 ∨ hourOfDay = 5 then 0.7
    else 1
  let gasMultiplier := if dayOfWeek = 5 ∨ dayOfWeek = 6 then gasMultiplier0 * 0.8 else gasMultiplier0
  let volGasFactor := 1 + min (volatility / 20) 1 * 0.5
  let gasPriceGwei := clampQ 18 400
    (baseGas * gasMultiplier * volGasFactor * npLognormal seed k5 0 0.3)
  let k6 := k5 + 1
  let liquidityScore := volume24h / marketCap * 100
  let maPair : ℚ × ℚ × ℕ :=
    if 168 ≤ i then
      let recent := st.rows.drop (i - 168)
      (listMean (recent.map (fun r => r.volume_24h)),
       listMean (recent.map (fun r => r.volatility)), k6)
    else
      (volume24h * npUniform seed k6 0.8 1.2,
       volatility * npUniform seed (k6 + 1) 0.7 1.3, k6 + 2)
  let volumeMa7d := maPair.1
  let volatilityMa7d := maPair.2.1
  let k7 := maPair.2.2
  let priceMomentum := priceChange24h * (1 + volatility / 20)
  let vr := if 0 < volumeMa7d then volume24h / volumeMa7d else 1
  let gasTrend := (gasPriceGwei - 28) / 372
  let row : FeatureRow := {
    volatility := volatility
    volume_24h := volume24h
    price_change_1h := priceChange1h
    price_change_24h := priceChange24h
    market_cap := marketCap
    gas_price_gwei := gasPriceGwei
    liquidity_score := liquidityScore
    hour_of_day := (hourOfDay : ℚ)
    day_of_week := (dayOfWeek : ℚ)
    volume_ma_7d := volumeMa7d
    volatility_ma_7d := volatilityMa7d
    price_momentum := priceMomentum
    volume_ratio_val := vr
    gas_trend := gasTrend }
  { rows := st.rows ++ [row], k := k7 }

/-- The feature-generation loop of `_generate_realistic_training_data`,
iterated `n` times from the freshly seeded PRNG. -/
def prodGenRowsAux (seed startHour startWeekday : ℕ) : ℕ → GenState
  | 0 => { rows := [], k := 0 }
  | n + 1 => prodGenStep seed startHour startWeekday (prodGenRowsAux seed startHour startWeekday n)

/-- The labelling pass `df.apply(self._calculate_sophisticated_optimal_fee)`:
row `i` receives one `np.random.normal(0, 0.015)` noise draw, consumed after
the whole feature loop has run (pandas applies the oracle after the loop). -/
def labelRows (seed k0 i : ℕ) : List FeatureRow → List (FeatureRow × ℚ)
  | [] => []
  | r :: rs =>
    (r, calculateSophisticatedOptimalFee r (npNormal seed (k0 + i) 0 0.015)) ::
      labelRows seed k0 (i + 1) rs

/-- `ProductionFeePredictor._generate_realistic_training_data`.  The source
opens with `np.random.seed(42)` — `seed` generalises that constant — which
discards the ambient PRNG position `g0`; but `start_date` is derived from
`datetime.now()`, so the hour-of-day/day-of-week schedule of the rows (and
with it every time-multiplied feature and label) depends on the wall clock
`t`.  Subtracting 365 days moves the weekday back by one (365 = 52*7+1) and
keeps the hour. -/
def prodGenerate (n seed : ℕ) (t : TimeInfo) (g0 : ℕ) : List (FeatureRow × ℚ) :=
  let startHour := t.hour
  let startWeekday := (t.weekday + 6) % 7
  let st := prodGenRowsAux seed startHour startWeekday n
  labelRows seed st.k 0 st.rows

/-- One iteration of `AdvancedFeePredictor._generate_advanced_training_data`
(ml_models.py): no wall-clock input (hour and weekday are PRNG draws) and
no history dependence, with 12 draws per row (the oracle's label noise is
drawn inside the loop). -/
def advGenRow (seed i : ℕ) : FeatureRow × ℚ :=
  let k := 12 * i
  let hourOfDay := npRandint seed k 0 24
  let dayOfWeek := npRandint seed (k + 1) 0 7
  let volatilityMultiplier : ℚ :=
    if hourOfDay = 9 ∨ hourOfDay = 10 ∨ hourOfDay = 16 ∨ hourOfDay = 17 then 1.5 else 1
  let volatility := clampQ 0.5 25 (npExponential seed (k + 2) 3 * volatilityMultiplier)
  let volumeNoise := npLognormal seed (k + 3) 0 0.3
  let volatilityImpact := 1 + (volatility - 5) * 0.1
  let volume24h := clampQ 50000000 5000000000 (800000000 * volumeNoise * volatilityImpact)
  let priceChange1h := npNormal seed (k + 4) 0 (volatility / 10)
  let priceChange24h := npNormal seed (k + 5) 0 (volatility / 3)
  let marketCap := npLognormal seed (k + 6) 24 0.4
  let gasMultiplier : ℚ := if dayOfWeek = 1 ∨ dayOfWeek = 2 ∨ dayOfWeek = 3 then 1.3 else 0.8
  let gasPriceGwei := clampQ 15 300 (npExponential seed (k + 7) 30 * gasMultiplier)
  let liquidityScore := volume24h / marketCap * 100
  let volumeMa7d := volume24h * npUniform seed (k + 8) 0.8 1.2
  let volatilityMa7d := volatility * npUniform seed (k + 9) 0.7 1.3
  let priceMomentum := priceChange24h * npUniform seed (k + 10) 0.5 1.5
  let vr := volume24h / volumeMa7d
  let gasTrend := (gasPriceGwei - 25) / 275
  let row : FeatureRow := {
    volatility := volatility
    volume_24h := volume24h
    price_change_1h := priceChange1h
    price_change_24h := priceChange24h
    market_cap := marketCap
    gas_price_gwei := gasPriceGwei
    liquidity_score := liquidityScore
    hour_of_day := (hourOfDay : ℚ)
    day_of_week := (dayOfWeek : ℚ)
    volume_ma_7d := volumeMa7d
    volatility_ma_7d := volatilityMa7d
    price_momentum := priceMomentum
    volume_ratio_val := vr
    gas_trend := gasTrend }
  (row, advCalculateSophisticatedOptimalFee row (npNormal seed (k + 11) 0 0.02) powOneTwoModel)

/-- `AdvancedFeePredictor._generate_advanced_training_data`: like the
production generator it opens with `np.random.seed(42)` (generalised as
`seed`), discarding the ambient PRNG position `g0`; unlike the production
generator it takes nothing from the wall clock. -/
def advGenerate (n seed : ℕ) (g0 : ℕ) : List (FeatureRow × ℚ) :=
  (List.range n).map (advGenRow seed)

/-- C1: for every MarketDataSnapshot whose coingecko sub-record is missing
or empty, `predict_optimal_fee` returns the fallback PredictionResult —
`primary_model = "fallback"`, `recommended_fee = Config.BASE_FEE_RATE`,
`confidence = 0.4` — and, being a total function, surfaces no error to the
caller. -/
theorem c1_missing_snapshot_falls_back (models : List ModelSlot) (best : Option String)
    (t : TimeInfo) (s : MarketDataSnapshot) (h : s.coingecko = []) :
    predictOptimalFee models best t s = fallbackPrediction t.isoTimestamp
  ∧ (predictOptimalFee models best t s).lookup "primary_model" = some (PValue.str "fallback")
  ∧ (predictOptimalFee models best t s).lookup "recommended_fee" = some (PValue.num baseFeeRate)
  ∧ (predictOptimalFee models best t s).lookup "confidence" = some (PValue.num 0.4) := by
  have hx : extractFeaturesFromMarketData t s = none := by
    simp [extractFeaturesFromMarketData, h]
  refine ⟨?_, ?_, ?_, ?_⟩ <;>
    simp [predictOptimalFee, hx, fallbackPrediction, List.lookup]

theorem c1_missing_snapshot_falls_back_witness :
    predictOptimalFee [] none ⟨0, 0, "ts"⟩ ⟨[], []⟩ = fallbackPrediction "ts"
  ∧ (predictOptimalFee [] none ⟨0, 0, "ts"⟩ ⟨[], []⟩).lookup "primary_model" =
      some (PValue.str "fallback")
  ∧ (predictOptimalFee [] none ⟨0, 0, "ts"⟩ ⟨[], []⟩).lookup "recommended_fee" =
      some (PValue.num baseFeeRate)
  ∧ (predictOptimalFee [] none ⟨0, 0, "ts"⟩ ⟨[], []⟩).lookup "confidence" =
      some (PValue.num 0.4) :=
  c1_missing_snapshot_falls_back [] none ⟨0, 0, "ts"⟩ ⟨[], []⟩ rfl

/-- C10: feature extraction returns `none` if and only if the coingecko
sub-record is missing or empty, and when coingecko data is present but the
network sub-record is absent, extraction succeeds with
`gas_price_gwei = 28` — making `gas_trend` exactly 0 — so a missing gas
price alone never selects the fallback prediction path. -/
theorem c10_extraction_none_iff_no_coingecko (t : TimeInfo) (s : MarketDataSnapshot) :
    (extractFeaturesFromMarketData t s = none ↔ s.coingecko = [])
  ∧ (s.coingecko ≠ [] → s.network = [] →
      (extractFeaturesFromMarketData t s).map FeatureRow.gas_price_gwei = some 28
    ∧ (extractFeaturesFromMarketData t s).map FeatureRow.gas_trend = some 0) := by
  constructor
  · constructor
    · intro h
      by_contra hne
      simp [extractFeaturesFromMarketData, hne] at h
    · intro h
      simp [extractFeaturesFromMarketData, h]
  · intro h hn
    constructor <;> simp [extractFeaturesFromMarketData, h, hn]

theorem c10_extraction_none_iff_no_coingecko_witness :
    (extractFeaturesFromMarketData ⟨2, 3, "ts"⟩
        ⟨[("volatility", 5)], []⟩).map FeatureRow.gas_trend = some 0 :=
  ((c10_extraction_none_iff_no_coingecko ⟨2, 3, "ts"⟩ ⟨[("volatility", 5)], []⟩).2
    (by decide) rfl).2

/-- C8: the Market Condition Classifier is a pure function of
(volatility, volume_ratio, gas_trend, |price_change_24h|), returns one
label of the fixed enumerated set, and — the rules being evaluated
top-down with the first match winning — volatility > 20 together with
|price_change_24h| > 15 yields "extreme_volatility" regardless of the
remaining features. -/
theorem c8_classifier_decision_table (f g : FeatureRow)
    (hv : f.volatility = g.volatility) (hr : f.volume_ratio_val = g.volume_ratio_val)
    (hg : f.gas_trend = g.gas_trend) (hp : |f.price_change_24h| = |g.price_change_24h|) :
    classifyMarketCondition f = classifyMarketCondition g
  ∧ classifyMarketCondition f ∈ ["extreme_volatility", "high_volatility_congested",
      "high_volatility", "stable_liquid", "stable", "network_congested", "moderate"]
  ∧ (f.volatility > 20 → |f.price_change_24h| > 15 →
      classifyMarketCondition f = "extreme_volatility") := by
  refine ⟨?_, ?_, ?_⟩
  · simp only [classifyMarketCondition]
    rw [hv, hr, hg, hp]
  · unfold classifyMarketCondition classifyAux
    split_ifs <;> simp
  · intro h1 h2
    unfold classifyMarketCondition classifyAux
    rw [if_pos ⟨h1, h2⟩]

theorem c8_classifier_decision_table_witness :
    classifyMarketCondition ⟨21, 0, 0, 16, 0, 0, 0, 0, 0, 0, 0, 0, 0, 0⟩ =
      "extreme_volatility" :=
  (c8_classifier_decision_table ⟨21, 0, 0, 16, 0, 0, 0, 0, 0, 0, 0, 0, 0, 0⟩
      ⟨21, 0, 0, 16, 0, 0, 0, 0, 0, 0, 0, 0, 0, 0⟩ rfl rfl rfl rfl).2.2
    (by norm_num) (by norm_num)

/-- C6: the Confidence Scorer returns a value in [0.4, 0.95] for every
model kind and every FeatureVector — a static per-model prior with signed
extremity adjustments, clamped to those bounds; the advanced-variant
scorer clamps to [0.5, 0.95] and hence also stays inside [0.4, 0.95]. -/
theorem c6_confidence_scorer_bounds (modelName : String) (f : FeatureRow) (vol : ℚ) :
    (0.4 ≤ calculateModelConfidence modelName f
      ∧ calculateModelConfidence modelName f ≤ 0.95)
  ∧ (0.4 ≤ advCalculateModelConfidence modelName vol
      ∧ advCalculateModelConfidence modelName vol ≤ 0.95) := by
  refine ⟨⟨?_, ?_⟩, ⟨?_, ?_⟩⟩
  · simp only [calculateModelConfidence]
    exact le_clampQ_left _ _ _
  · simp only [calculateModelConfidence]
    exact clampQ_le_right _ _ _ (by norm_num)
  · simp only [advCalculateModelConfidence]
    exact le_trans (by norm_num) (le_clampQ_left _ _ _)
  · simp only [advCalculateModelConfidence]
    exact clampQ_le_right _ _ _ (by norm_num)

/-- C4 counterexample: the claim "the oracle returns a fee in [0.05, 2.5]"
fails for the advanced-variant oracle cited by the claim
(`AdvancedFeePredictor._calculate_sophisticated_optimal_fee` clamps at
3.0): with volatility 1, unit volume ratio, zero gas trend, liquidity
score 2, hour 12 and price momentum 10000, zero noise, it returns 3.0. -/
theorem c4_oracle_above_bound_counterexample :
    advCalculateSophisticatedOptimalFee
      ⟨1, 0, 0, 0, 0, 0, 2, 12, 0, 0, 0, 10000, 1, 0⟩ 0 id > 2.5 := by
  norm_num [advCalculateSophisticatedOptimalFee, clampQ, baseFeeRate]

/-- C4 (amended): the production oracle always returns a fee in
[0.05, 2.5] (for every FeatureVector and every noise value); the
advanced-variant oracle is clamped to [0.05, 3.0] instead, so 2.5 bounds
only the production variant. -/
theorem c4_oracle_bounds (row f : FeatureRow) (noise noise2 : ℚ) (p : ℚ → ℚ) :
    (0.05 ≤ calculateSophisticatedOptimalFee row noise
      ∧ calculateSophisticatedOptimalFee row noise ≤ 2.5)
  ∧ (0.05 ≤ advCalculateSophisticatedOptimalFee f noise2 p
      ∧ advCalculateSophisticatedOptimalFee f noise2 p ≤ 3.0) := by
  refine ⟨⟨?_, ?_⟩, ⟨?_, ?_⟩⟩
  · simp only [calculateSophisticatedOptimalFee]
    exact le_clampQ_left _ _ _
  · simp only [calculateSophisticatedOptimalFee]
    exact clampQ_le_right _ _ _ (by norm_num)
  · simp only [advCalculateSophisticatedOptimalFee]
    exact le_clampQ_left _ _ _
  · simp only [advCalculateSophisticatedOptimalFee]
    exact clampQ_le_right _ _ _ (by norm_num)

/-- C3 counterexample: when the best model is absent from the prediction
map, the source takes the plain `np.mean` of the predictions, not the
confidence-weighted mean the claim states.  With predictions a = 1
(confidence 1) and b = 2 (confidence 3) and no best member, the final fee
is 1.5 while the clamped confidence-weighted mean is 1.75. -/
theorem c3_blend_weighted_mean_counterexample :
    (blendPredictions [("a", 1, 1), ("b", 2, 3)] none).1 ≠
      clampQ 0.05 2.5 ((1 * 1 + 2 * 3) / (1 + 3)) := by
  norm_num [blendPredictions, listMean, clampQ]

/-- C3 (amended): for every non-empty prediction map, the final fee equals
the best member's raw prediction clamped to [0.05, 2.5] when that member
is present, and otherwise the clamped UNWEIGHTED arithmetic mean of the
available predictions (the confidence-weighted mean is only reported
separately as `ensemble_prediction`); in both cases the final fee lies in
[0.05, 2.5]. -/
theorem c3_blend_primary_policy (entries : List PredEntry) (best : Option String)
    (h : entries ≠ []) :
    (∀ b pc, best = some b → entries.lookup b = some pc →
        (blendPredictions entries best).1 = clampQ 0.05 2.5 pc.1)
  ∧ (best.bind (fun b => entries.lookup b) = none →
        (blendPredictions entries best).1 =
          clampQ 0.05 2.5 (listMean (entries.map (fun e => e.2.1))))
  ∧ 0.05 ≤ (blendPredictions entries best).1
  ∧ (blendPredictions entries best).1 ≤ 2.5 := by
  refine ⟨?_, ?_, ?_, ?_⟩
  · intro b pc hb hl
    simp [blendPredictions, hb, hl]
  · intro hnone
    simp [blendPredictions, hnone]
  · simp only [blendPredictions]
    exact le_clampQ_left _ _ _
  · simp only [blendPredictions]
    exact clampQ_le_right _ _ _ (by norm_num)

theorem c3_blend_primary_policy_witness :
    (blendPredictions [("random_forest", 1, 0.87)] (some "random_forest")).1 =
      clampQ 0.05 2.5 1 :=
  (c3_blend_primary_policy [("random_forest", 1, 0.87)] (some "random_forest")
      (by simp)).1 "random_forest" (1, 0.87) rfl (by simp)

/-- C5 counterexample: the fallback record returned by
`predict_optimal_fee` (here: on a snapshot with no coingecko data) does
not contain the `all_predictions` field, so the claim that every returned
PredictionResult carries all ten listed fields is false. -/
theorem c5_fallback_record_counterexample :
    ¬ ("all_predictions" ∈ resultKeys (predictOptimalFee [] none ⟨0, 0, "ts"⟩ ⟨[], []⟩)) := by
  simp [predictOptimalFee, extractFeaturesFromMarketData, fallbackPrediction, resultKeys]

/-- C5 (amended): `predict_optimal_fee` is total — no failure propagates
to the caller — and always returns a flat record, but the record carries
the ten claimed fields only on the success path; every fallback path
returns the six-field record without `ensemble_prediction`,
`all_predictions`, `model_confidences` and `features_used`. -/
theorem c5_result_always_well_formed (models : List ModelSlot) (best : Option String)
    (t : TimeInfo) (s : MarketDataSnapshot) :
    resultKeys (predictOptimalFee models best t s) =
      ["recommended_fee", "confidence", "reasoning", "market_condition", "primary_model",
       "ensemble_prediction", "all_predictions", "model_confidences", "features_used",
       "prediction_timestamp"]
  ∨ resultKeys (predictOptimalFee models best t s) =
      ["recommended_fee", "confidence", "reasoning", "market_condition", "primary_model",
       "prediction_timestamp"] := by
  unfold predictOptimalFee
  split
  · right
    simp [fallbackPrediction, resultKeys]
  · dsimp only
    split
    · right
      simp [fallbackPrediction, resultKeys]
    · left
      simp [resultKeys]

/-- The list a single optional justification contributes. -/
def optToList (o : Option String) : List String := o.elim [] (fun s => [s])

theorem filterMap_id_six (a b c d e g : Option String) :
    ([a, b, c, d, e, g].filterMap id) =
      optToList a ++ optToList b ++ optToList c ++ optToList d ++ optToList e ++ optToList g := by
  cases a <;> cases b <;> cases c <;> cases d <;> cases e <;> cases g <;> rfl

theorem optToList_agreementNote (predictions : List (String × ℚ)) :
    optToList (agreementNote predictions) =
      (if predictions = [] then []
       else
         if listVariance (predictions.map Prod.snd) < 1 / 400 then
           ["Strong model consensus (σ=" ++
              fmtFixed 3 (sqrtQ (listVariance (predictions.map Prod.snd))) ++ ")"]
         else if listVariance (predictions.map Prod.snd) > 9 / 400 then
           ["Model disagreement detected (σ=" ++
              fmtFixed 3 (sqrtQ (listVariance (predictions.map Prod.snd))) ++ ")"]
         else []) := by
  unfold agreementNote optToList
  dsimp only
  split_ifs <;> rfl

theorem optToList_volatilityNote (f : FeatureRow) :
    optToList (volatilityNote f) =
      (if f.volatility > 15 then
         ["Extreme volatility (" ++ fmtFixed 1 f.volatility ++ "%) increases trading risk"]
       else if f.volatility > 8 then
         ["High volatility (" ++ fmtFixed 1 f.volatility ++ "%) detected"]
       else if f.volatility < 2 then
         ["Very stable market conditions (" ++ fmtFixed 1 f.volatility ++ "% volatility)"]
       else []) := by
  unfold volatilityNote optToList
  split_ifs <;> rfl

theorem optToList_volumeNote (f : FeatureRow) :
    optToList (volumeNote f) =
      (if f.volume_ratio_val > 1.5 then ["Above-average trading volume supports lower fees"]
       else if f.volume_ratio_val < 0.7 then ["Below-average volume may increase price impact"]
       else []) := by
  unfold volumeNote optToList
  split_ifs <;> rfl

theorem optToList_congestionNote (f : FeatureRow) :
    optToList (congestionNote f) =
      (if f.gas_price_gwei > 80 then
         ["High network congestion (" ++ fmtFixed 0 f.gas_price_gwei ++ " GWEI)"]
       else if f.gas_price_gwei < 20 then
         ["Low network congestion favors efficient execution"]
       else []) := by
  unfold congestionNote optToList
  split_ifs <;> rfl

theorem optToList_timeOfDayNote (f : FeatureRow) :
    optToList (timeOfDayNote f) =
      (if f.hour_of_day = 14 ∨ f.hour_of_day = 15 ∨ f.hour_of_day = 16 then
         ["Peak trading hours may increase volatility"]
       else if f.hour_of_day = 2 ∨ f.hour_of_day = 3 ∨ f.hour_of_day = 4 ∨ f.hour_of_day = 5 then
         ["Low-activity period with reduced liquidity"]
       else []) := by
  unfold timeOfDayNote optToList
  split_ifs <;> rfl

theorem optToList_deviationNote (finalPrediction : ℚ) :
    optToList (deviationNote finalPrediction) =
      (if finalPrediction / baseFeeRate > 1.5 then
         ["Fee " ++ fmtFixed 0 ((finalPrediction / baseFeeRate - 1) * 100) ++
            "% above base rate due to market conditions"]
       else if finalPrediction / baseFeeRate < 0.8 then
         ["Fee " ++ fmtFixed 0 ((1 - finalPrediction / baseFeeRate) * 100) ++
            "% below base rate due to favorable conditions"]
       else []) := by
  unfold deviationNote optToList
  dsimp only
  split_ifs <;> rfl

/-- C9: for every FeatureVector, non-empty prediction map and final fee,
the Reasoning Generator emits its justifications in the fixed slot order
model-agreement, volatility, volume/liquidity, network-congestion,
time-of-day, deviation-from-base-fee — each present exactly when its
threshold condition holds — and the reasoning string is that list joined
with ". " plus a trailing period. -/
theorem c9_reasoning_slot_order (f : FeatureRow) (predictions : List (String × ℚ))
    (finalPrediction : ℚ) (h : predictions ≠ []) :
    generateProductionReasoning f predictions finalPrediction =
      String.intercalate ". "
        ((reasoningSlots f predictions finalPrediction).filterMap id) ++ "." := by
  unfold generateProductionReasoning reasoningSlots
  dsimp only
  rw [filterMap_id_six, optToList_agreementNote, optToList_volatilityNote,
    optToList_volumeNote, optToList_congestionNote, optToList_timeOfDayNote,
    optToList_deviationNote]
  simp only [List.nil_append, List.append_assoc]

theorem c9_reasoning_slot_order_witness :
    generateProductionReasoning ⟨5, 0, 0, 0, 0, 30, 0, 12, 0, 0, 0, 0, 1, 0⟩
        [("random_forest", 0.3)] 0.3 =
      String.intercalate ". "
        ((reasoningSlots ⟨5, 0, 0, 0, 0, 30, 0, 12, 0, 0, 0, 0, 1, 0⟩
            [("random_forest", 0.3)] 0.3).filterMap id) ++ "." :=
  c9_reasoning_slot_order ⟨5, 0, 0, 0, 0, 30, 0, 12, 0, 0, 0, 0, 1, 0⟩
    [("random_forest", 0.3)] 0.3 (by simp)

/-- A feature row whose derived fields satisfy the spec's shared derivation
formulas for `liquidity_score` and `gas_trend`. -/
def rowSpecCompatible (r : FeatureRow) : Prop :=
  r.liquidity_score = specLiquidityScore r.volume_24h r.market_cap ∧
  r.gas_trend = specGasTrend r.gas_price_gwei

theorem prodGenStep_spec (seed sh sw : ℕ) (st : GenState) (r : FeatureRow)
    (hr : r ∈ (prodGenStep seed sh sw st).rows) : r ∈ st.rows ∨ rowSpecCompatible r := by
  simp only [prodGenStep, List.mem_append, List.mem_singleton] at hr
  rcases hr with h | h
  · exact Or.inl h
  · refine Or.inr ?_
    subst h
    constructor
    · show _ / _ * 100 = specLiquidityScore _ _
      rw [specLiquidityScore, max_eq_left]
      exact le_trans (by norm_num) (le_clampQ_left 15000000000 50000000000 _)
    · rfl

theorem prodGenRowsAux_spec (seed sh sw : ℕ) :
    ∀ (n : ℕ) (r : FeatureRow), r ∈ (prodGenRowsAux seed sh sw n).rows → rowSpecCompatible r := by
  intro n
  induction n with
  | zero => intro r hr; simp [prodGenRowsAux] at hr
  | succ m ih =>
    intro r hr
    simp only [prodGenRowsAux] at hr
    rcases prodGenStep_spec seed sh sw _ r hr with h | h
    · exact ih r h
    · exact h

theorem labelRows_mem_fst (seed k0 : ℕ) :
    ∀ (rows : List FeatureRow) (i : ℕ) (x : FeatureRow × ℚ),
      x ∈ labelRows seed k0 i rows → x.1 ∈ rows := by
  intro rows
  induction rows with
  | nil => intro i x hx; simp [labelRows] at hx
  | cons r rs ih =>
    intro i x hx
    simp only [labelRows, List.mem_cons] at hx
    rcases hx with h | h
    · subst h; exact List.mem_cons_self r rs
    · exact List.mem_cons_of_mem _ (ih (i + 1) x h)

/-- C7 counterexample: the live codec does not compute
`liquidity_score = volume_24h / max(market_cap, 1) * 100` on every accepted
snapshot — on a snapshot with coingecko data but `market_cap` absent
(defaulted to 0) the codec's `market_cap > 0` guard yields 0 while the
claimed formula yields `volume_24h * 100`. -/
theorem c7_codec_liquidity_counterexample :
    (extractFeaturesFromMarketData ⟨0, 0, "ts"⟩
        ⟨[("volume_24h", 1000000000)], []⟩).map FeatureRow.liquidity_score ≠
      some (specLiquidityScore 1000000000 0) := by
  have hb1 : (("market_cap" == "volume_24h") = false) := rfl
  norm_num [extractFeaturesFromMarketData, dictGet, specLiquidityScore, List.lookup, hb1]

/-- C7 (amended): the codec computes
`liquidity_score = volume_24h / max(market_cap, 1) * 100` whenever the
snapshot's market cap is positive (and 0 otherwise), and
`gas_trend = (gas_price_gwei - 28) / 372` always; every row the synthetic
production generator emits satisfies those same two spec formulas (its
market caps are clamped to at least 1.5e10, where the missing
`max(market_cap, 1)` guard is vacuous), so the two components agree on all
data the generator can produce. -/
theorem c7_derived_field_formulas :
    (∀ (t : TimeInfo) (s : MarketDataSnapshot), s.coingecko ≠ [] →
       ((0 < dictGet s.coingecko "market_cap" 0 →
           (extractFeaturesFromMarketData t s).map FeatureRow.liquidity_score =
             some (specLiquidityScore (dictGet s.coingecko "volume_24h" 0)
                    (dictGet s.coingecko "market_cap" 0)))
      ∧ (extractFeaturesFromMarketData t s).map FeatureRow.gas_trend =
          (extractFeaturesFromMarketData t s).map (fun f => specGasTrend f.gas_price_gwei)))
  ∧ (∀ (n seed : ℕ) (t : TimeInfo) (g0 : ℕ) (x : FeatureRow × ℚ),
       x ∈ prodGenerate n seed t g0 → rowSpecCompatible x.1) := by
  constructor
  · intro t s h
    constructor
    · intro hm
      simp [extractFeaturesFromMarketData, h, hm, specLiquidityScore]
    · simp [extractFeaturesFromMarketData, h, specGasTrend]
  · intro n seed t g0 x hx
    simp only [prodGenerate] at hx
    exact prodGenRowsAux_spec seed t.hour ((t.weekday + 6) % 7) n x.1
      (labelRows_mem_fst seed _ _ 0 x hx)

theorem c7_derived_field_formulas_witness :
    (extractFeaturesFromMarketData ⟨0, 0, "ts"⟩
        ⟨[("volume_24h", 2), ("market_cap", 4)], []⟩).map FeatureRow.liquidity_score =
      some (specLiquidityScore 2 4) := by
  have h := (c7_derived_field_formulas.1 ⟨0, 0, "ts"⟩
      ⟨[("volume_24h", 2), ("market_cap", 4)], []⟩ (by simp)).1
  dsimp only at h
  have he : dictGet [("volume_24h", 2), ("market_cap", 4)] "volume_24h" 0 = 2 := rfl
  have he2 : dictGet [("volume_24h", 2), ("market_cap", 4)] "market_cap" 0 = 4 := rfl
  rw [he, he2] at h
  exact h (by norm_num)

/-- C2 counterexample: the production generator is not a function of
(n, seed) alone — its hour-of-day/day-of-week schedule comes from
`datetime.now()` — so two calls with the same sample count and the same
seed made at different wall-clock hours (here 14:xx vs 03:xx on a Monday)
return different TrainingSample sequences. -/
theorem c2_wall_clock_counterexample :
    prodGenerate 1 42 ⟨14, 0, "run1"⟩ 0 ≠ prodGenerate 1 42 ⟨3, 0, "run2"⟩ 0 := by
  intro h
  have h2 := congrArg (List.map (fun x => x.1.hour_of_day)) h
  simp only [prodGenerate, prodGenRowsAux, prodGenStep, labelRows, List.map,
    List.length_nil, List.nil_append] at h2
  norm_num at h2

/-- C2 (amended): the advanced generator is deterministic given
(sample count, seed) alone; the production generator is deterministic
given (sample count, seed) together with the wall-clock hour and weekday
that `datetime.now()` supplies to its start date.  Both reseed the global
PRNG on entry, so neither depends on the ambient PRNG position (`g0`,
`g1`). -/
theorem c2_generator_determinism (n seed g0 g1 : ℕ) (t t2 : TimeInfo)
    (hh : t.hour = t2.hour) (hw : t.weekday = t2.weekday) :
    prodGenerate n seed t g0 = prodGenerate n seed t2 g1
  ∧ advGenerate n seed g0 = advGenerate n seed g1 := by
  constructor
  · cases t
    cases t2
    dsimp only at hh hw
    subst hh
    subst hw
    rfl
  · rfl

theorem c2_generator_determinism_witness :
    prodGenerate 1 42 ⟨14, 0, "morning run"⟩ 0 = prodGenerate 1 42 ⟨14, 0, "later run"⟩ 5
  ∧ advGenerate 1 42 0 = advGenerate 1 42 5 :=
  c2_generator_determinism 1 42 0 5 ⟨14, 0, "morning run"⟩ ⟨14, 0, "later run"⟩ rfl rfl
